import Mathlib

/-
Verification of the natural-language specification of `dax/launcher.py`
against a shallow embedding of its code.

Conventions of the embedding:
* Python strings are Lean `String`; Python string equality `==` is Lean `==`.
* Python `datetime` values are modelled as `Int` timestamps in seconds;
  `timedelta(days = n)` is `n * 86400`.
* External collaborators (the cluster, the metadata store, `strptime`) are
  passed in as explicit parameters or oracles; the code under `src/` is
  translated statement by statement.
* Python exceptions are made explicit in result types.
-/

namespace DaxLauncher

/-! ## Status constants

The constants below live in the `task` module of the repository, which is not
under `src/` (only `launcher.py` is).  Only their identity and pairwise
distinctness matter to `launcher.py`, which compares them with `==`. -/

/-- Modelled from the spec: ProcStatus value `NEED_INPUTS` from the task
module (not in `src/`); modelled as a distinct string constant. -/
def NEED_INPUTS : String := "NEED_INPUTS"

/-- Modelled from the spec: ProcStatus value `NEED_TO_RUN` from the task
module (not in `src/`); modelled as a distinct string constant. -/
def NEED_TO_RUN : String := "NEED_TO_RUN"

/-- Modelled from the spec: ProcStatus value `NO_DATA` from the task
module (not in `src/`); modelled as a distinct string constant. -/
def NO_DATA : String := "NO_DATA"

/-- Modelled from the spec: QcStatus value `JOB_PENDING` from the task
module (not in `src/`); modelled as a distinct string constant. -/
def JOB_PENDING : String := "JOB_PENDING"

/-- Modelled from the spec: QcStatus value `RERUN` from the task
module (not in `src/`); modelled as a distinct string constant. -/
def RERUN : String := "RERUN"

/-- Modelled from the spec: QcStatus value `REPROC` from the task
module (not in `src/`); modelled as a distinct string constant. -/
def REPROC : String := "REPROC"

/-! ## Per-task build decisions (build phase)

`build_session_processors` (launcher.py lines 561-632) and
`build_scan_processors` (lines 659-734) look up an existing assessor for the
generated assessor name and then decide whether to build.  The looked-up
assessor (`p_assr` in the source, `None` when no assessor with that name
exists) is the input of the decision. -/

/-- An assessor as seen through `csess.assessors()` / `cscan.parent().assessors()`:
the fields of `assr.info()` consulted by the build decisions. -/
structure CachedAssr where
  label : String
  procstatus : String
  qcstatus : String
deriving DecidableEq, Repr

/-- Disk-queue build condition at session level, transcribing launcher.py
lines 586-588:
`p_assr is None or p_assr.info()['procstatus'] == task.NEED_INPUTS or
 p_assr.info()['qcstatus'] in [task.RERUN, task.REPROC]`. -/
def diskq_session_build_cond : Option CachedAssr → Bool
  | none => true
  | some a =>
      a.procstatus == NEED_INPUTS || a.qcstatus == RERUN || a.qcstatus == REPROC

/-- Disk-queue build condition at scan level, transcribing launcher.py
lines 686-689:
`p_assr is None or p_assr.info()['procstatus'] in [task.NEED_INPUTS,
 task.NEED_TO_RUN] or p_assr.info()['qcstatus'] in [task.RERUN, task.REPROC]`.
Note the extra `NEED_TO_RUN` disjunct compared to the session level. -/
def diskq_scan_build_cond : Option CachedAssr → Bool
  | none => true
  | some a =>
      a.procstatus == NEED_INPUTS || a.procstatus == NEED_TO_RUN ||
      a.qcstatus == RERUN || a.qcstatus == REPROC

/-- Disk-queue status-refresh condition, transcribing launcher.py lines
593-595 (session) and 696-698 (scan), which are identical:
`p_assr is not None and p_assr.info()['qcstatus'] in [task.RERUN, task.REPROC]`
forces `xtask.update_status()` before `build_task`. -/
def diskq_refresh_cond : Option CachedAssr → Bool
  | none => false
  | some a => a.qcstatus == RERUN || a.qcstatus == REPROC

/-- Modelled from the spec: the build/enqueue condition as the spec words it,
for comparison with the code's conditions: "build/enqueue a DiskQ task iff no
existing assessor, OR existing ProcStatus==NEED_INPUTS, OR existing
QcStatus in RERUN, REPROC". -/
def specDiskqBuildCond : Option CachedAssr → Bool
  | none => true
  | some a =>
      a.procstatus == NEED_INPUTS || a.qcstatus == RERUN || a.qcstatus == REPROC

/-- Modelled from the spec: the refresh condition as the spec words it:
"If an existing assessor has QcStatus in RERUN, REPROC, force a status
refresh before rebuilding". -/
def specDiskqRefreshCond : Option CachedAssr → Bool
  | none => false
  | some a => a.qcstatus == RERUN || a.qcstatus == REPROC

/-- Whether the looked-up assessor exists and has the given ProcStatus. -/
def assr_has_procstatus (p : Option CachedAssr) (st : String) : Bool :=
  match p with
  | none => false
  | some a => a.procstatus == st

/-! ## Store-direct status assignment (build phase)

In non-disk-queue modes, launcher.py lines 608-632 (session) and 711-734
(scan) are identical: when the act condition holds
(`p_assr is None or p_assr.info()['procstatus'] == task.NEED_INPUTS`),
`has_inputs, qcstatus = proc.has_inputs(...)` is evaluated and statuses are
written.  We record the sequence of status writes performed. -/

/-- One status write performed on a task: `set_status` or `set_qcstatus`. -/
inductive StatusWrite
  | proc (s : String)
  | qc (s : String)
deriving DecidableEq, Repr

/-- Store-direct act condition, transcribing launcher.py lines 609-610 and
712-713: `p_assr is None or p_assr.info()['procstatus'] == task.NEED_INPUTS`. -/
def store_direct_act_cond : Option CachedAssr → Bool
  | none => true
  | some a => a.procstatus == NEED_INPUTS

/-- Store-direct per-context step, transcribing launcher.py lines 609-632
(session level) and 712-734 (scan level), which perform the same writes:
`has_inputs == 1` writes NEED_TO_RUN then JOB_PENDING; `has_inputs == -1`
writes NO_DATA then the collaborator-supplied qcstatus; otherwise only the
collaborator-supplied qcstatus is written.  If the act condition fails,
nothing is written ("Other statuses handled by dax_update_tasks"). -/
def store_direct_step (p_assr : Option CachedAssr) (has_inputs : Int)
    (qcstatus : String) : List StatusWrite :=
  if store_direct_act_cond p_assr = true then
    if has_inputs = 1 then
      [StatusWrite.proc NEED_TO_RUN, StatusWrite.qc JOB_PENDING]
    else if has_inputs = -1 then
      [StatusWrite.proc NO_DATA, StatusWrite.qc qcstatus]
    else
      [StatusWrite.qc qcstatus]
  else []

/-! ## Launch phase (`Launcher.launch_tasks`, launcher.py lines 210-278)

The cluster is an external collaborator; `cluster.count_jobs()` is modelled
as an oracle `countJobs : Nat → Int` giving the value returned by the k-th
call (the source treats `-1` as a failed read).  A task carries the outcome
of its `launch(...)` call: `launchOk = false` covers both a `False` return
and an exception caught at lines 264-269 (which sets `success = False`).

Python's `task_list.pop()` removes the *last* element, so the loop consumes
`task_list.reverse` front to back. -/

/-- A task as consumed by `launch_tasks`: its assessor label and the outcome
of its `launch(...)` call. -/
structure LTask where
  label : String
  launchOk : Bool
deriving DecidableEq, Repr

/-- One launch call (a submission; with writeonly it is an artifact write).
`cjobsVar` is the value of the loop variable `cjobs` when the admission
condition admitted this task; `lastRead` is the most recent value actually
returned by `cluster.count_jobs()` before this submission. -/
structure Submission where
  label : String
  cjobsVar : Int
  lastRead : Int
deriving DecidableEq, Repr

/-- How `launch_tasks` terminated.  `nameError`: the loop condition read the
unassigned variable `cjobs` (force_no_qsub path).  `launchFail`: a launch
returned failure, raising `ClusterLaunchException`.  `countFail`: a
post-submission `count_jobs()` read returned -1, raising
`ClusterCountJobsException`.  `earlyCountFail`: the initial read returned -1
and the method returned at line 229. -/
inductive LaunchRes
  | normal
  | nameError
  | launchFail
  | countFail
  | earlyCountFail
deriving DecidableEq, Repr

/-- The observable outcome of `launch_tasks`: the submissions performed in
order, the number of `cluster.count_jobs()` calls made, and how it ended. -/
structure LaunchOutcome where
  submissions : List Submission
  countCalls : Nat
  res : LaunchRes
deriving DecidableEq, Repr

/-- The `while` loop of launcher.py lines 235-278.  The first argument after
the oracle is the loop variable `cjobs` (`none` = never assigned, so reading
it raises NameError).  `lastRead` tracks the most recent `count_jobs` value;
`calls` counts the `count_jobs` calls made so far (and indexes the next one).

Faithfulness note: after a submission the source executes
`cur_job_count = cluster.count_jobs()` (line 275) and only compares
`cur_job_count` with -1; the loop variable `cjobs` is never reassigned, so
the recursive call below passes `some cjobs` unchanged while `lastRead`
becomes the fresh value. -/
def launchLoop (queue_limit : Int) (writeonly : Bool) (countJobs : Nat → Int) :
    Option Int → Int → Nat → List LTask → List Submission → LaunchOutcome
  | none, _, calls, _, acc => ⟨acc.reverse, calls, LaunchRes.nameError⟩
  | some _, _, calls, [], acc => ⟨acc.reverse, calls, LaunchRes.normal⟩
  | some cjobs, lastRead, calls, cur_task :: rest, acc =>
    if cjobs < queue_limit ∨ writeonly = true then
      if cur_task.launchOk = false then
        ⟨(⟨cur_task.label, cjobs, lastRead⟩ :: acc).reverse, calls,
          LaunchRes.launchFail⟩
      else
        if countJobs calls = -1 then
          ⟨(⟨cur_task.label, cjobs, lastRead⟩ :: acc).reverse, calls + 1,
            LaunchRes.countFail⟩
        else
          launchLoop queue_limit writeonly countJobs (some cjobs)
            (countJobs calls) (calls + 1) rest
            (⟨cur_task.label, cjobs, lastRead⟩ :: acc)
    else ⟨acc.reverse, calls, LaunchRes.normal⟩

/-- `Launcher.launch_tasks` (launcher.py lines 210-278).  With
`force_no_qsub` the variable `cjobs` is never assigned (lines 222-232 only
log), so the loop condition raises NameError; otherwise `cjobs` is read once
(call index 0) and a -1 answer makes the method return at line 229 before
any submission.  (`cluster.command_found` at line 231 only gates a log line
and is not modelled.) -/
def launch_tasks (queue_limit : Int) (writeonly force_no_qsub : Bool)
    (countJobs : Nat → Int) (task_list : List LTask) : LaunchOutcome :=
  if force_no_qsub = true then
    launchLoop queue_limit writeonly countJobs none 0 0 task_list.reverse []
  else
    if countJobs 0 = -1 then ⟨[], 1, LaunchRes.earlyCountFail⟩
    else
      launchLoop queue_limit writeonly countJobs (some (countJobs 0))
        (countJobs 0) 1 task_list.reverse []

/-! ## Update phase (`Launcher.update_tasks`, launcher.py lines 281-339)

Both branches (diskq at lines 314-316, store at lines 334-337) run
`for cur_task in task_list: cur_task.update_status()` with no try/except:
an exception from `update_status` propagates out of the loop. -/

/-- A task as consumed by `update_tasks`: its label and whether its
`update_status()` call raises. -/
structure UTask where
  label : String
  updateRaises : Bool
deriving DecidableEq, Repr

/-- Outcome of the update loop: labels whose `update_status()` completed, in
order, and the label whose `update_status()` raised (the exception then
propagates uncaught out of `update_tasks`), if any. -/
structure UpdateOutcome where
  updated : List String
  raised : Option String
deriving DecidableEq, Repr

/-- The update loop of launcher.py lines 314-316 / 334-337: each task's
`update_status()` runs in turn; a raise aborts the loop (no handler). -/
def update_tasks_loop : List UTask → UpdateOutcome
  | [] => ⟨[], none⟩
  | cur_task :: rest =>
    if cur_task.updateRaises = true then ⟨[], some cur_task.label⟩
    else
      ⟨cur_task.label :: (update_tasks_loop rest).updated,
        (update_tasks_loop rest).raised⟩

/-! ## Processor matching (`Launcher.match_proc` / `generate_task`,
launcher.py lines 948-994) -/

/-- A processor as consulted by `match_proc`: its `xsitype` and `name`. -/
structure ProcDef where
  xsitype : String
  name : String
deriving DecidableEq, Repr

/-- An assessor record as consulted by `match_proc`/`generate_task`
(from `XnatUtils.list_assessors`). -/
structure AssrRec where
  assessor_label : String
  xsiType : String
  proctype : String
deriving DecidableEq, Repr

/-- The per-processor test of launcher.py lines 961-962 / 967-968:
`proc.xsitype == assr_info['xsiType'] and proc.name == assr_info['proctype']`. -/
def proc_matches (assr : AssrRec) (p : ProcDef) : Bool :=
  p.xsitype == assr.xsiType && p.name == assr.proctype

/-- `Launcher.match_proc` (launcher.py lines 948-971): first matching
session processor wins; only if none matches is the scan list searched, in
order; else no match. -/
def match_proc (assr : AssrRec) (sess_proc_list scan_proc_list : List ProcDef) :
    Option ProcDef :=
  match sess_proc_list.find? (proc_matches assr) with
  | some p => some p
  | none => scan_proc_list.find? (proc_matches assr)

/-- A generated task: the matched processor bound to the assessor. -/
structure GenTask where
  proc : ProcDef
  assessor_label : String
deriving DecidableEq, Repr

/-- `Launcher.generate_task` (launcher.py lines 973-994): no match yields
`None` after a warning (the assessor is excluded, no exception); a match
yields `Task(task_proc, assr, ...)`. -/
def generate_task (assr : AssrRec) (sess_proc_list scan_proc_list : List ProcDef) :
    Option GenTask :=
  match match_proc assr sess_proc_list scan_proc_list with
  | none => none
  | some p => some ⟨p, assr.assessor_label⟩

/-- The assessor loop of `Launcher.get_project_tasks` (launcher.py lines
939-944): valid assessors whose `generate_task` is non-None are appended in
order. -/
def get_project_tasks (assr_list : List AssrRec) (is_valid : AssrRec → Bool)
    (sess_proc_list scan_proc_list : List ProcDef) : List GenTask :=
  match assr_list with
  | [] => []
  | a :: rest =>
    if is_valid a = true then
      match generate_task a sess_proc_list scan_proc_list with
      | some t => t :: get_project_tasks rest is_valid sess_proc_list scan_proc_list
      | none => get_project_tasks rest is_valid sess_proc_list scan_proc_list
    else get_project_tasks rest is_valid sess_proc_list scan_proc_list

/-! ## Sessions: staleness skip and ordering
(launcher.py lines 449-474, 1021-1048, 1061-1074) -/

/-- A session record from `XnatUtils.list_sessions`: the fields consulted by
the staleness policy and by `get_sessions_list`.  `last_updated` is the raw
orchestrator marker string (`'updated--<timestamp>'`, or `''` when the
session was never swept). -/
structure SessInfo where
  label : String
  last_modified : String
  last_updated : String
deriving DecidableEq, Repr

/-- The marker prefix `UPDATE_PREFIX = 'updated--'` of launcher.py line 21
(named differently here only for lexical reasons). -/
def updateMarkerTag : String := "updated--"

/-- `Launcher.get_lastupdated` (launcher.py lines 1061-1074):
`update_time = info['last_updated'][len(UPDATE_PREFIX):]`; empty means no
marker (`None`), otherwise the timestamp is parsed with `strptime`
(modelled by the oracle argument, seconds since an epoch). -/
def get_lastupdated (strptime : String → Int) (last_updated : String) :
    Option Int :=
  if last_updated.drop updateMarkerTag.length = "" then none
  else some (strptime (last_updated.drop updateMarkerTag.length))

/-- The per-session skip decision of `Launcher.build_project`
(launcher.py lines 450-474), returning whether the `continue` is executed.
`sessions_local_given` is the truthiness of `sessions_local`;
`lastmod_delta` is `str_to_timedelta(mod_delta)` in seconds when a
`mod_delta` was supplied.  `timedelta(days=int(max_age))` is
`max_age * 86400` seconds.  The first branch skips iff the marker is present,
`last_mod < last_up`, and `now_date < last_mod + max_age` days; the `elif`
branch (only reached when the first condition fails) skips sessions not
modified within the delta. -/
def build_skip_decision (strptime : String → Int)
    (skip_lastupdate has_new sessions_local_given : Bool)
    (lastmod_delta : Option Int) (now_date max_age : Int)
    (s : SessInfo) : Bool :=
  if !skip_lastupdate && !has_new && !sessions_local_given then
    match get_lastupdated strptime s.last_updated with
    | some last_up =>
        decide (strptime (s.last_modified.take 19) < last_up) &&
        decide (now_date < strptime (s.last_modified.take 19) + max_age * 86400)
    | none => false
  else
    match lastmod_delta with
    | some delta =>
        decide (now_date > strptime (s.last_modified.take 19) + delta)
    | none => false

/-- `Launcher.get_sessions_list` (launcher.py lines 1021-1048): optionally
filter to the user-selected labels, then place the sessions with a falsy
(empty) `last_updated` first, in order, followed by every session whose
label is not among those never-swept labels, in order. -/
def get_sessions_list (slocal : Option String)
    (list_sessions : List SessInfo) : List SessInfo :=
  let filtered :=
    match slocal with
    | some sl =>
      if sl ≠ "" ∧ sl.toLower ≠ "all" then
        list_sessions.filter (fun x : SessInfo => decide (x.label ∈ sl.splitOn ","))
      else list_sessions
    | none => list_sessions
  let sorted_list := filtered.filter (fun s => s.last_updated == "")
  let new_sessions_label := sorted_list.map (fun sess => sess.label)
  sorted_list ++
    filtered.filter (fun s => !(decide (s.label ∈ new_sessions_label)))

/-! ## Launcher construction (`Launcher.__init__`, launcher.py lines 57-135) -/

/-- The slice of the global `DAX_Settings` read by `__init__` that the
claims consult. -/
structure DaxSettingsModel where
  queue_limit : Int
  max_age : Int
  launcher_type : String
deriving DecidableEq, Repr

/-- The fields of a constructed `Launcher` relevant to the claims. -/
structure LauncherState where
  queue_limit : Int
  max_age : Int
  launcher_type : String
  skip_lastupdate : Bool
deriving DecidableEq, Repr

/-- The `skip_lastupdate` parsing of launcher.py lines 91-94: falsy
(`None`/empty) or not starting (case-insensitively) with `'y'` means
`False`, else `True`. -/
def parse_skip_lastupdate : Option String → Bool
  | none => false
  | some s => if s = "" then false else s.toLower.startsWith "y"

/-- The field assignments of `Launcher.__init__` (launcher.py lines 82-94)
relevant to the claims.  Note line 89: `self.max_age =
DAX_SETTINGS.get_max_age()` — the `max_age` parameter (documented default 7)
is ignored.  Filesystem set-up, credentials and the project dictionaries are
outside the claims and not modelled. -/
def launcher_init (settings : DaxSettingsModel) (queue_limit max_age : Int)
    (launcher_type : String) (skip_lastupdate : Option String) :
    LauncherState :=
  { queue_limit := queue_limit
    max_age := settings.max_age
    launcher_type := launcher_type
    skip_lastupdate := parse_skip_lastupdate skip_lastupdate }

/-! # Theorems -/

/-- C2, counterexample: with a task whose `update_status()` raises followed
by a healthy task, the update loop propagates the exception (`raised` is
set) and the remaining task is never reconciled — the batch does not
continue, refuting the claim that per-task failures are caught. -/
theorem c2_counterexample :
    update_tasks_loop [⟨"t1", true⟩, ⟨"t2", false⟩] = ⟨[], some "t1"⟩ ∧
    "t2" ∉ (update_tasks_loop [⟨"t1", true⟩, ⟨"t2", false⟩]).updated := by
  decide

/-- C2, amended: an exception raised while reconciling one task's status is
NOT caught: it propagates out of `update_tasks`, aborting the batch — tasks
before the failing one were reconciled, tasks after it are not. -/
theorem c2_update_abort :
    ∀ (pre : List UTask) (cur : UTask) (rest : List UTask),
      (∀ t ∈ pre, t.updateRaises = false) → cur.updateRaises = true →
      update_tasks_loop (pre ++ cur :: rest) =
        ⟨pre.map (fun t => t.label), some cur.label⟩ := by
  intro pre cur rest
  induction pre with
  | nil =>
    intro _ hcur
    simp [update_tasks_loop, hcur]
  | cons t pre ih =>
    intro hpre hcur
    have ht : t.updateRaises = false := hpre t (by simp)
    have hrec := ih (fun u hu => hpre u (by simp [hu])) hcur
    simp [update_tasks_loop, ht, hrec]

/-- C2, witness for the amended claim: one healthy task, then a raising
task, then another task — exactly the first is reconciled and the raise is
reported on the second. -/
theorem c2_update_abort_witness :
    update_tasks_loop [⟨"a", false⟩, ⟨"b", true⟩, ⟨"c", false⟩] =
      ⟨["a"], some "b"⟩ :=
  c2_update_abort [⟨"a", false⟩] ⟨"b", true⟩ [⟨"c", false⟩] (by decide) rfl

/-- C3, counterexample: an existing assessor with ProcStatus `NEED_TO_RUN`
and a QcStatus outside RERUN/REPROC is rebuilt at scan level but not at
session level, and falls outside the claimed build condition — so the
build decision is neither the claimed iff nor identical at both levels. -/
theorem c3_counterexample :
    diskq_scan_build_cond (some ⟨"a", NEED_TO_RUN, "Passed"⟩) = true ∧
    specDiskqBuildCond (some ⟨"a", NEED_TO_RUN, "Passed"⟩) = false ∧
    diskq_session_build_cond (some ⟨"a", NEED_TO_RUN, "Passed"⟩) = false := by
  decide

/-- C3, amended: at session level a DiskQ task is built/enqueued iff no
assessor with the generated name exists, or its ProcStatus is NEED_INPUTS,
or its QcStatus is RERUN or REPROC; at scan level the condition additionally
admits ProcStatus NEED_TO_RUN; the pre-rebuild status refresh happens iff an
existing assessor has QcStatus RERUN or REPROC, identically at both levels. -/
theorem c3_diskq_build_conditions (p : Option CachedAssr) :
    diskq_session_build_cond p = specDiskqBuildCond p ∧
    diskq_scan_build_cond p =
      (specDiskqBuildCond p || assr_has_procstatus p NEED_TO_RUN) ∧
    diskq_refresh_cond p = specDiskqRefreshCond p := by
  refine ⟨?_, ?_, ?_⟩ <;> cases p <;>
    simp [diskq_session_build_cond, diskq_scan_build_cond, diskq_refresh_cond,
      specDiskqBuildCond, specDiskqRefreshCond, assr_has_procstatus,
      Bool.or_comm, Bool.or_left_comm, Bool.or_assoc]

/-- C5: in store-direct modes, when the act condition holds, a `ready`
readiness (`has_inputs == 1`) writes ProcStatus NEED_TO_RUN then QcStatus
JOB_PENDING; `permanently-blocked` (`has_inputs == -1`) writes ProcStatus
NO_DATA then the collaborator-supplied QcStatus; any other result writes
only the collaborator-supplied QcStatus.  A NEED_TO_RUN ProcStatus write
happens only for `ready`, a NO_DATA write only for `permanently-blocked`,
and outside those two results no ProcStatus write happens at all. -/
theorem c5_store_direct_status (p : Option CachedAssr) (h : Int) (q : String) :
    (store_direct_act_cond p = true →
      ((h = 1 → store_direct_step p h q =
          [StatusWrite.proc NEED_TO_RUN, StatusWrite.qc JOB_PENDING]) ∧
       (h = -1 → store_direct_step p h q =
          [StatusWrite.proc NO_DATA, StatusWrite.qc q]) ∧
       (h ≠ 1 → h ≠ -1 → store_direct_step p h q = [StatusWrite.qc q]))) ∧
    (StatusWrite.proc NEED_TO_RUN ∈ store_direct_step p h q → h = 1) ∧
    (StatusWrite.proc NO_DATA ∈ store_direct_step p h q → h = -1) ∧
    (h ≠ 1 → h ≠ -1 → ∀ w ∈ store_direct_step p h q,
      ∀ s, w ≠ StatusWrite.proc s) := by
  by_cases hc : store_direct_act_cond p = true <;>
    by_cases h1 : h = 1 <;>
    by_cases h2 : h = -1 <;>
    simp [store_direct_step, hc, h1, h2, NEED_TO_RUN, NO_DATA, JOB_PENDING]

/-- C5, witness: no existing assessor (act condition holds) and a `ready`
readiness yields exactly the NEED_TO_RUN / JOB_PENDING writes. -/
theorem c5_store_direct_status_witness :
    store_direct_step none 1 "qq" =
      [StatusWrite.proc NEED_TO_RUN, StatusWrite.qc JOB_PENDING] :=
  ((c5_store_direct_status none 1 "qq").1 rfl).1 rfl

/-- C9: with `force_no_qsub`, the variable `cjobs` is never assigned before
the while condition reads it, so every `launch_tasks` call — whatever the
queue limit, `writeonly` flag, cluster oracle or task list, including the
empty one — raises NameError with no submissions and no cluster calls. -/
theorem c9_force_no_qsub_name_error (queue_limit : Int) (writeonly : Bool)
    (countJobs : Nat → Int) (task_list : List LTask) :
    launch_tasks queue_limit writeonly true countJobs task_list =
      ⟨[], 0, LaunchRes.nameError⟩ := by
  simp [launch_tasks, launchLoop]

/-- C10: `Launcher.__init__` ignores its `max_age` parameter — the stored
`max_age` consulted by the staleness policy always comes from the global DAX
settings, and two constructions differing only in the `max_age` argument
(e.g. its documented default 7 versus any other value) yield identical
launcher state. -/
theorem c10_max_age_ignored (settings : DaxSettingsModel)
    (queue_limit a b : Int) (launcher_type : String)
    (skip_lastupdate : Option String) :
    (launcher_init settings queue_limit a launcher_type
        skip_lastupdate).max_age = settings.max_age ∧
    launcher_init settings queue_limit a launcher_type skip_lastupdate =
      launcher_init settings queue_limit b launcher_type skip_lastupdate :=
  ⟨rfl, rfl⟩

/-- The concrete cluster oracle of C1's failing input: the initial
`count_jobs` read returns 0, every later read returns 5. -/
def c1CountOracle : Nat → Int := fun k => if k = 0 then 0 else 5

/-- C1, failing input: `queue_limit = 1`, two healthy tasks, cluster count 0
at the initial read and 5 at every re-read.  The code performs BOTH
submissions: the admission condition keeps testing the stale `cjobs = 0`
because the post-submission read lands in the unused `cur_job_count`
variable, so the second submission happens although the most recently read
cluster job count, 5, is not strictly below the queue limit 1 — refuting
the claim that the fresh value gates the next admission. -/
theorem c1_stale_admission_eval :
    launch_tasks 1 false false c1CountOracle [⟨"t1", true⟩, ⟨"t2", true⟩] =
      ⟨[⟨"t2", 0, 0⟩, ⟨"t1", 0, 5⟩], 3, LaunchRes.normal⟩ ∧
    ¬((5 : Int) < 1) := by
  decide

/-- C4, counterexample: with `writeonly = true` (and `force_no_qsub`
defaulted false) and one task, the submission count equals the list length
but `cluster.count_jobs()` is called twice — refuting "no cluster call
occurs". -/
theorem c4_counterexample :
    (launch_tasks 0 true false (fun _ => 0) [⟨"t1", true⟩]).submissions.length
        = 1 ∧
    (launch_tasks 0 true false (fun _ => 0) [⟨"t1", true⟩]).countCalls ≠ 0 := by
  decide

/-- Writeonly launch loop: when every task launches successfully and every
count read succeeds, the loop drains the whole stack — the admission test is
short-circuited by `writeonly` — performing one count read per task. -/
theorem launchLoop_writeonly_drains (queue_limit : Int) (countJobs : Nat → Int) :
    ∀ (stack : List LTask) (c lastRead : Int) (calls : Nat)
      (acc : List Submission),
      (∀ t ∈ stack, t.launchOk = true) →
      (∀ k, calls ≤ k → k < calls + stack.length → countJobs k ≠ -1) →
      (launchLoop queue_limit true countJobs (some c) lastRead calls stack
          acc).res = LaunchRes.normal ∧
      (launchLoop queue_limit true countJobs (some c) lastRead calls stack
          acc).countCalls = calls + stack.length ∧
      (launchLoop queue_limit true countJobs (some c) lastRead calls stack
          acc).submissions.length = acc.length + stack.length := by
  intro stack
  induction stack with
  | nil =>
    intro c lastRead calls acc _ _
    simp [launchLoop]
  | cons t rest ih =>
    intro c lastRead calls acc hok hcj
    have ht : t.launchOk = true := hok t (by simp)
    have hc0 : ¬(countJobs calls = -1) :=
      hcj calls (Nat.le_refl _) (by simp only [List.length_cons]; omega)
    have hrec := ih c (countJobs calls) (calls + 1)
      (⟨t.label, c, lastRead⟩ :: acc)
      (fun u hu => hok u (by simp [hu]))
      (fun k hk1 hk2 => hcj k (by omega)
        (by simp only [List.length_cons] at hk2 ⊢; omega))
    have hunfold : launchLoop queue_limit true countJobs (some c) lastRead
        calls (t :: rest) acc =
        launchLoop queue_limit true countJobs (some c) (countJobs calls)
          (calls + 1) rest (⟨t.label, c, lastRead⟩ :: acc) := by
      simp [launchLoop, ht, hc0]
    rw [hunfold]
    refine ⟨hrec.1, ?_, ?_⟩
    · rw [hrec.2.1]
      simp only [List.length_cons]
      omega
    · rw [hrec.2.2]
      simp only [List.length_cons]
      omega

/-- C4, amended: with `writeonly = true` and `force_no_qsub = false`, if the
initial cluster count read succeeds, every task launch succeeds and every
post-submission count read succeeds, then the number of submissions
(artifact writes) equals the task-list length — the admission test is
bypassed, so the loop drains the whole list regardless of the queue limit —
but cluster calls do occur: `count_jobs` is read once before the loop and
once after every submission. -/
theorem c4_writeonly_drains (queue_limit : Int) (countJobs : Nat → Int)
    (task_list : List LTask)
    (h0 : ¬(countJobs 0 = -1))
    (hok : ∀ t ∈ task_list, t.launchOk = true)
    (hcj : ∀ k, 1 ≤ k → k ≤ task_list.length → countJobs k ≠ -1) :
    (launch_tasks queue_limit true false countJobs task_list).submissions.length
        = task_list.length ∧
    (launch_tasks queue_limit true false countJobs task_list).countCalls
        = task_list.length + 1 ∧
    (launch_tasks queue_limit true false countJobs task_list).res
        = LaunchRes.normal := by
  have key := launchLoop_writeonly_drains queue_limit countJobs
    task_list.reverse (countJobs 0) (countJobs 0) 1 []
    (fun t ht => hok t (List.mem_reverse.mp ht))
    (fun k hk1 hk2 => hcj k hk1
      (by simp only [List.length_reverse] at hk2; omega))
  have hlt : launch_tasks queue_limit true false countJobs task_list =
      launchLoop queue_limit true countJobs (some (countJobs 0)) (countJobs 0)
        1 task_list.reverse [] := by
    simp [launch_tasks, h0]
  rw [hlt]
  refine ⟨?_, ?_, key.1⟩
  · rw [key.2.2]
    simp
  · rw [key.2.1]
    simp only [List.length_reverse]
    omega

/-- C4, witness for the amended claim: queue limit 0 (already "full"), one
healthy task, all count reads succeed — the task is still submitted and two
cluster count reads happen. -/
theorem c4_writeonly_drains_witness :
    (launch_tasks 0 true false (fun _ => 0) [⟨"t1", true⟩]).submissions.length
        = 1 ∧
    (launch_tasks 0 true false (fun _ => 0) [⟨"t1", true⟩]).countCalls = 2 := by
  have h := c4_writeonly_drains 0 (fun _ => 0) [⟨"t1", true⟩]
    (by decide) (by decide) (fun k h1 h2 => by simp)
  exact ⟨h.1, h.2.1⟩

/-- `find?` returns the first element satisfying the predicate: a prefix of
non-matching elements is skipped. -/
theorem find?_first_match_after_skips {α : Type} (f : α → Bool) :
    ∀ (pre : List α) (p : α) (post : List α),
      (∀ q ∈ pre, f q = false) → f p = true →
      (pre ++ p :: post).find? f = some p := by
  intro pre p post
  induction pre with
  | nil =>
    intro _ hp
    simp [hp]
  | cons q pre ih =>
    intro hpre hp
    rw [List.cons_append, List.find?_cons_of_neg _ (by simp [hpre q (by simp)])]
    exact ih (fun r hr => hpre r (by simp [hr])) hp

/-- C6: `match_proc` returns the first session processor whose
(xsitype, name) equals the assessor's (xsiType, proctype) — any later
session entry or any scan processor with the same key is not selected; only
when no session processor matches is the scan list searched, in order; and
when neither list matches, `generate_task` yields no task (the assessor is
excluded; the functions are total, so no error is raised). -/
theorem c6_match_priority (assr : AssrRec)
    (pre post scan_proc_list sess_proc_list : List ProcDef) (p : ProcDef) :
    ((∀ q ∈ pre, proc_matches assr q = false) → proc_matches assr p = true →
      match_proc assr (pre ++ p :: post) scan_proc_list = some p) ∧
    ((∀ q ∈ sess_proc_list, proc_matches assr q = false) →
      match_proc assr sess_proc_list scan_proc_list =
        scan_proc_list.find? (proc_matches assr)) ∧
    ((∀ q ∈ sess_proc_list, proc_matches assr q = false) →
     (∀ q ∈ scan_proc_list, proc_matches assr q = false) →
      generate_task assr sess_proc_list scan_proc_list = none) := by
  refine ⟨?_, ?_, ?_⟩
  · intro hpre hp
    have hfind := find?_first_match_after_skips (proc_matches assr)
      pre p post hpre hp
    simp [match_proc, hfind]
  · intro hsess
    have hnone : sess_proc_list.find? (proc_matches assr) = none :=
      List.find?_eq_none.mpr (fun x hx => by simp [hsess x hx])
    simp [match_proc, hnone]
  · intro hsess hscan
    have h1 : sess_proc_list.find? (proc_matches assr) = none :=
      List.find?_eq_none.mpr (fun x hx => by simp [hsess x hx])
    have h2 : scan_proc_list.find? (proc_matches assr) = none :=
      List.find?_eq_none.mpr (fun x hx => by simp [hscan x hx])
    simp [generate_task, match_proc, h1, h2]

/-- C6, witness: the assessor has key (xt, T); the session list holds a
non-matching entry, then a matching one, then another entry with the same
key; the scan list also holds an entry with the same key.  The first
matching session processor is selected. -/
theorem c6_match_priority_witness :
    match_proc ⟨"lab", "xt", "T"⟩
      ([⟨"xt", "U"⟩] ++ ⟨"xt", "T"⟩ :: [⟨"xt", "T"⟩]) [⟨"xt", "T"⟩] =
      some ⟨"xt", "T"⟩ :=
  (c6_match_priority ⟨"lab", "xt", "T"⟩ [⟨"xt", "U"⟩] [⟨"xt", "T"⟩]
      [⟨"xt", "T"⟩] [] ⟨"xt", "T"⟩).1 (by decide) (by decide)

/-- C7: with no session filter, tracking enabled (`skip_lastupdate` off) and
no new processor types, a session is skipped iff its last-updated marker is
present, the store last-modified time is strictly before the marker, and
now is strictly before last-modified plus `max_age` days; a session with an
absent marker is never skipped by this rule (whatever `mod_delta` was
supplied, since the `elif` branch is not reached). -/
theorem c7_staleness_skip (strptime : String → Int) (lastmod_delta : Option Int)
    (now_date max_age : Int) (s : SessInfo) :
    (build_skip_decision strptime false false false lastmod_delta now_date
        max_age s = true ↔
      ∃ last_up, get_lastupdated strptime s.last_updated = some last_up ∧
        strptime (s.last_modified.take 19) < last_up ∧
        now_date < strptime (s.last_modified.take 19) + max_age * 86400) ∧
    (get_lastupdated strptime s.last_updated = none →
      build_skip_decision strptime false false false lastmod_delta now_date
        max_age s = false) := by
  cases hlu : get_lastupdated strptime s.last_updated with
  | none =>
    refine ⟨?_, fun _ => ?_⟩ <;> simp [build_skip_decision, hlu]
  | some lu =>
    refine ⟨?_, fun hnone => ?_⟩
    · simp [build_skip_decision, hlu]
    · exact Option.noConfusion hnone

/-- C7, witness: a session whose `last_updated` field is empty (never swept,
marker absent) is not skipped. -/
theorem c7_staleness_skip_witness :
    build_skip_decision (fun str => (str.length : Int)) false false false
      none 0 7 ⟨"S", "2024-01-02 03:04:05", ""⟩ = false :=
  (c7_staleness_skip (fun str => (str.length : Int)) none 0 7
    ⟨"S", "2024-01-02 03:04:05", ""⟩).2 rfl

/-- C8, counterexample: a swept session whose label coincides with a
never-swept session's label is dropped from the result — `get_sessions_list`
does not return all sessions. -/
theorem c8_counterexample :
    get_sessions_list none [⟨"A", "", ""⟩, ⟨"A", "", "updated--x"⟩] =
      [⟨"A", "", ""⟩] ∧
    (⟨"A", "", "updated--x"⟩ : SessInfo) ∉
      get_sessions_list none [⟨"A", "", ""⟩, ⟨"A", "", "updated--x"⟩] := by
  decide

/-- C8, amended: `get_sessions_list` returns the never-swept sessions (empty
last-updated marker) first, preserving relative input order, followed by the
swept sessions whose label does not coincide with any never-swept session's
label, also in relative input order; in particular, when no swept session
shares a label with a never-swept one (e.g. when labels are unique) it
returns all sessions, never-swept first. -/
theorem c8_never_swept_first (l : List SessInfo)
    (h : ∀ s ∈ l, s.last_updated ≠ "" → ∀ t ∈ l, t.last_updated = "" →
      s.label ≠ t.label) :
    get_sessions_list none l =
      l.filter (fun s => s.last_updated == "") ++
      l.filter (fun s => !(s.last_updated == "")) := by
  show l.filter (fun s => s.last_updated == "") ++
      l.filter (fun s => !(decide (s.label ∈
        (l.filter (fun s => s.last_updated == "")).map
          (fun sess => sess.label)))) = _
  congr 1
  apply List.filter_congr
  intro x hx
  by_cases hlu : x.last_updated = ""
  · have hmem : x.label ∈ (l.filter (fun s => s.last_updated == "")).map
        (fun sess => sess.label) :=
      List.mem_map.mpr ⟨x, List.mem_filter.mpr ⟨hx, by simp [hlu]⟩, rfl⟩
    simp [hlu, hmem]
  · have hnmem : x.label ∉ (l.filter (fun s => s.last_updated == "")).map
        (fun sess => sess.label) := by
      intro hmem
      obtain ⟨y, hy, hyx⟩ := List.mem_map.mp hmem
      obtain ⟨hyl, hyu⟩ := List.mem_filter.mp hy
      exact h x hx hlu y hyl (by simpa using hyu) hyx.symm
    simp [hlu, hnmem]

/-- C8, witness: the spec's scenario — input [A (never swept), B (swept),
C (never swept)] yields [A, C, B]. -/
theorem c8_never_swept_first_witness :
    get_sessions_list none
      [⟨"A", "", ""⟩, ⟨"B", "", "updated--x"⟩, ⟨"C", "", ""⟩] =
      [⟨"A", "", ""⟩, ⟨"C", "", ""⟩, ⟨"B", "", "updated--x"⟩] := by
  rw [c8_never_swept_first _ (by decide)]
  decide

end DaxLauncher
